import Mathlib

/-!
Shallow embedding of the `local-weather` GRIB2 ingestion service
(`src/services/ingest/grib2_reader.py`, `src/services/ingest/bigquery_writer.py`,
`src/services/ingest/config.py`) together with proofs about the embedded code.

Modelling conventions:
* Python `float` values are modelled exactly: by `ℚ` where the code only moves
  values around and compares them, and by `ℝ` where transcendental functions
  (`math.sqrt`, `math.atan2`) occur.  Python `round(x, n)` is modelled as
  ideal decimal round-half-to-even.  The tile indexer's float mean
  `sum(vals) / len(vals)` is genuine float arithmetic, modelled by explicit
  binary64 round-to-nearest-even (`roundB64`, `pyFloatSum`): its left-to-right
  rounded summation is order-dependent.
* `None` / NaN payloads are modelled with `Option`.
* Python exceptions are modelled with `Except Unit`.
* External library calls (`xarray.Dataset.sel`) are modelled as oracle fields
  of a dataset structure; the surrounding control flow is embedded faithfully.
-/

namespace LocalWeather

/-! ### Python string primitives -/

/-- One step of Python `str.startswith` on character lists. -/
def charsStartWith : List Char → List Char → Bool
  | _, [] => true
  | [], _ :: _ => false
  | c :: cs, d :: ds => c == d && charsStartWith cs ds

/-- Python substring containment (`needle in hay`) on character lists. -/
def hasSubL : List Char → List Char → Bool
  | [], needle => needle.isEmpty
  | c :: t, needle => charsStartWith (c :: t) needle || hasSubL t needle

/-- Python `needle in hay` on strings. -/
def strContains (hay needle : String) : Bool :=
  hasSubL hay.toList needle.toList

/-- Python `str.strip()` on character lists: drop whitespace from both ends. -/
def pyStripL (l : List Char) : List Char :=
  ((l.dropWhile Char.isWhitespace).reverse.dropWhile Char.isWhitespace).reverse

/-- Python `str.strip()`. -/
def pyStrip (s : String) : String := String.mk (pyStripL s.toList)

/-- Python `str.lower()` (ASCII fragment, as used by the idx level strings). -/
def strLower (s : String) : String := String.mk (s.toList.map Char.toLower)

/-- Python `str.upper()` (ASCII fragment, used for model names). -/
def strUpper (s : String) : String := String.mk (s.toList.map Char.toUpper)

/-- Python `str.split(sep)` for a one-character separator, on character lists. -/
def splitListOn (sep : Char) : List Char → List (List Char)
  | [] => [[]]
  | c :: t =>
    let r := splitListOn sep t
    if c = sep then [] :: r
    else
      match r with
      | [] => [[c]]
      | h :: t' => (c :: h) :: t'

/-- Accumulate the numeric value of a digit list (caller checks digits). -/
def digitsToNat : List Char → Nat → Nat
  | [], acc => acc
  | c :: t, acc => digitsToNat t (acc * 10 + (c.toNat - 48))

/-- Python `int(s)` on the decimal-literal fragment used by idx files:
optional surrounding whitespace, optional sign, digits.  `none` models
`ValueError`. -/
def pyInt? (s : String) : Option Int :=
  let cs := pyStripL s.toList
  let signAndRest : Int × List Char :=
    match cs with
    | '+' :: t => (1, t)
    | '-' :: t => (-1, t)
    | t => (1, t)
  let ds := signAndRest.2
  if ds.isEmpty || !(ds.all Char.isDigit) then none
  else some (signAndRest.1 * (digitsToNat ds 0 : Int))

/-- Python `float(s)` on the decimal-literal fragment used by idx sequence
ids (optional sign, digits, optional fractional part).  `none` models
`ValueError`. -/
def pyFloat? (s : String) : Option ℚ :=
  let cs := pyStripL s.toList
  let signAndRest : ℚ × List Char :=
    match cs with
    | '+' :: t => (1, t)
    | '-' :: t => (-1, t)
    | t => (1, t)
  let body := signAndRest.2
  let intPart := body.takeWhile Char.isDigit
  let rest := body.dropWhile Char.isDigit
  match rest with
  | [] =>
    if intPart.isEmpty then none
    else some (signAndRest.1 * (digitsToNat intPart 0 : ℚ))
  | '.' :: frac =>
    if frac.all Char.isDigit && (!intPart.isEmpty || !frac.isEmpty) then
      some (signAndRest.1 *
        ((digitsToNat intPart 0 : ℚ) + (digitsToNat frac 0 : ℚ) / 10 ^ frac.length))
    else none
  | _ => none

/-- Python `int(q)` for a float value: truncation toward zero. -/
def truncToInt (q : ℚ) : Int := if q < 0 then ⌈q⌉ else ⌊q⌋

/-! ### Field matcher (`_match_idx_entry`) -/

/-- One parsed `.idx` line (`_parse_idx_file` entry dict). -/
structure IdxEntry where
  index : Int
  offset : Int
  endOffset : Option Int
  dateStr : String
  varName : String
  level : String
  forecast : String
deriving DecidableEq

/-- One entry of `GRIB2_VARIABLES` (`config.py`); a missing `typeOfLevel` or
`level` key is the empty string, as in `var_config.get(..., "")`. -/
structure VarConfig where
  shortName : String
  typeOfLevel : String := ""
  level : String := ""

/-- The table lookup `name_map.get(short_name, [short_name])` from `_match_idx_entry`. -/
def nameMapLookup (s : String) : List String :=
  if s = "2t" then ["TMP"]
  else if s = "10u" then ["UGRD"]
  else if s = "10v" then ["VGRD"]
  else if s = "tp" then ["APCP", "PRATE"]
  else if s = "sde" then ["SNOD"]
  else if s = "0deg" then ["HGT"]
  else if s = "cape" then ["CAPE"]
  else if s = "2r" then ["RH"]
  else [s]

/-- Embedding of `_match_idx_entry(entry, var_config)` from `grib2_reader.py`. -/
def matchIdxEntry (entry : IdxEntry) (cfg : VarConfig) : Bool :=
  let varName := entry.varName
  let level := pyStrip entry.level
  let expectedNames := nameMapLookup cfg.shortName
  if !(expectedNames.contains varName) then false
  else if cfg.typeOfLevel == "heightAboveGround" && cfg.level != "" then
    strContains level (cfg.level ++ " m above ground")
  else if cfg.typeOfLevel == "surface" then
    strContains (strLower level) "surface"
  else if cfg.typeOfLevel == "isothermZero" then
    strContains level "0C" || strContains (strLower level) "isotherm"
  else true

/-- The `temperature_2m` entry of `GRIB2_VARIABLES`. -/
def cfg2t : VarConfig := { shortName := "2t", typeOfLevel := "heightAboveGround", level := "2" }

/-- An idx entry whose level string is the pressure level `"2 mb"`. -/
def entry2mb : IdxEntry :=
  { index := 1, offset := 0, endOffset := none, dateStr := "d=2024010100",
    varName := "TMP", level := "2 mb", forecast := "anl" }

/-- An idx entry whose level string is `"2 m above ground"`. -/
def entry2mAboveGround : IdxEntry :=
  { index := 1, offset := 0, endOffset := none, dateStr := "d=2024010100",
    varName := "TMP", level := "2 m above ground", forecast := "anl" }

/-! ### Substring lemmas -/

theorem charsStartWith_iff (p l : List Char) :
    charsStartWith l p = true ↔ ∃ t, l = p ++ t := by
  induction p generalizing l with
  | nil => simp [charsStartWith]
  | cons d ds ih =>
    cases l with
    | nil => simp [charsStartWith]
    | cons c cs =>
      simp only [charsStartWith, Bool.and_eq_true, beq_iff_eq, ih]
      constructor
      · rintro ⟨rfl, t, rfl⟩
        exact ⟨t, by simp⟩
      · rintro ⟨t, h⟩
        rw [List.cons_append] at h
        injection h with h1 h2
        exact ⟨h1, t, h2⟩

theorem hasSubL_iff (hay needle : List Char) :
    hasSubL hay needle = true ↔ ∃ pre post, hay = pre ++ needle ++ post := by
  induction hay with
  | nil =>
    simp only [hasSubL, List.isEmpty_iff]
    constructor
    · rintro rfl
      exact ⟨[], [], rfl⟩
    · rintro ⟨pre, post, h⟩
      obtain ⟨h1, h2⟩ := List.append_eq_nil.mp h.symm
      exact (List.append_eq_nil.mp h1).2
  | cons c t ih =>
    simp only [hasSubL, Bool.or_eq_true, charsStartWith_iff, ih]
    constructor
    · rintro (⟨tl, h⟩ | ⟨pre, post, h⟩)
      · exact ⟨[], tl, by simpa using h⟩
      · exact ⟨c :: pre, post, by simp [h]⟩
    · rintro ⟨pre, post, h⟩
      cases pre with
      | nil => exact Or.inl ⟨post, by simpa using h⟩
      | cons p ps =>
        simp only [List.cons_append] at h
        cases h
        exact Or.inr ⟨ps, post, rfl⟩

theorem hasSubL_of_middle {hay pre mid post : List Char}
    (h : hasSubL hay (pre ++ mid ++ post) = true) : hasSubL hay mid = true := by
  rw [hasSubL_iff] at h ⊢
  obtain ⟨a, b, hab⟩ := h
  exact ⟨a ++ pre, post ++ b, by simp [hab]⟩

theorem pyStripL_middle (l : List Char) :
    ∃ pre post, l = pre ++ pyStripL l ++ post := by
  unfold pyStripL
  refine ⟨l.takeWhile Char.isWhitespace,
    ((l.dropWhile Char.isWhitespace).reverse.takeWhile Char.isWhitespace).reverse, ?_⟩
  have h1 : l.takeWhile Char.isWhitespace ++ l.dropWhile Char.isWhitespace = l :=
    List.takeWhile_append_dropWhile Char.isWhitespace l
  have h2 : (l.dropWhile Char.isWhitespace).reverse.takeWhile Char.isWhitespace ++
      (l.dropWhile Char.isWhitespace).reverse.dropWhile Char.isWhitespace =
      (l.dropWhile Char.isWhitespace).reverse :=
    List.takeWhile_append_dropWhile Char.isWhitespace (l.dropWhile Char.isWhitespace).reverse
  have h3 := congrArg List.reverse h2
  simp only [List.reverse_append, List.reverse_reverse] at h3
  conv_lhs => rw [← h1]
  rw [← h3]
  simp [List.append_assoc]

theorem strContains_of_strip {s n : String}
    (h : strContains (pyStrip s) n = true) : strContains s n = true := by
  unfold strContains at h ⊢
  have hs : (pyStrip s).toList = pyStripL s.toList := rfl
  rw [hs] at h
  obtain ⟨pre, post, hdec⟩ := pyStripL_middle s.toList
  rw [hasSubL_iff] at h ⊢
  obtain ⟨a, b, hab⟩ := h
  exact ⟨pre ++ a, b ++ post, by rw [hdec, hab]; simp [List.append_assoc]⟩

theorem strContains_append_left {s a b : String}
    (h : strContains s (a ++ b) = true) : strContains s a = true := by
  unfold strContains at h ⊢
  have : (a ++ b).toList = [] ++ a.toList ++ b.toList := by simp
  rw [this] at h
  exact hasSubL_of_middle h

theorem strContains_append_right {s a b : String}
    (h : strContains s (a ++ b) = true) : strContains s b = true := by
  unfold strContains at h ⊢
  have : (a ++ b).toList = a.toList ++ b.toList ++ [] := by simp
  rw [this] at h
  exact hasSubL_of_middle h

/-- C1: for a height-above-ground spec, any accepted idx entry's level string
contains both the numeric height and the qualifier "above ground"; the level
string `"2 mb"` is rejected for the 2 m spec while `"2 m above ground"` is
accepted. -/
theorem c1_height_above_ground_matching :
    (∀ (e : IdxEntry) (cfg : VarConfig),
      cfg.typeOfLevel = "heightAboveGround" → cfg.level ≠ "" →
      matchIdxEntry e cfg = true →
      strContains e.level cfg.level = true ∧ strContains e.level "above ground" = true)
    ∧ matchIdxEntry entry2mb cfg2t = false
    ∧ matchIdxEntry entry2mAboveGround cfg2t = true := by
  refine ⟨?_, by decide, by decide⟩
  intro e cfg htol hlev hmatch
  simp only [matchIdxEntry] at hmatch
  rcases hnames : (nameMapLookup cfg.shortName).contains e.varName with _ | _
  · rw [hnames] at hmatch
    simp at hmatch
  · have hc : (cfg.typeOfLevel == "heightAboveGround" && cfg.level != "") = true := by
      rw [htol]
      simp [hlev]
    rw [hnames, hc] at hmatch
    simp only [Bool.not_true, Bool.false_eq_true, if_false, if_true] at hmatch
    have hfull : strContains (pyStrip e.level) (cfg.level ++ " m above ground") = true := hmatch
    have hn : strContains (pyStrip e.level) cfg.level = true :=
      strContains_append_left hfull
    have hg0 : strContains (pyStrip e.level) (" m above ground") = true :=
      strContains_append_right hfull
    have hsplit : (" m above ground" : String) = " m " ++ "above ground" := rfl
    rw [hsplit] at hg0
    have hg : strContains (pyStrip e.level) "above ground" = true :=
      strContains_append_right hg0
    exact ⟨strContains_of_strip hn, strContains_of_strip hg⟩

/-- Witness for `c1_height_above_ground_matching`: the accepted
`"2 m above ground"` entry indeed carries both the height and the qualifier. -/
theorem c1_witness :
    strContains entry2mAboveGround.level cfg2t.level = true
    ∧ strContains entry2mAboveGround.level "above ground" = true :=
  c1_height_above_ground_matching.1 entry2mAboveGround cfg2t (by decide) (by decide) (by decide)

/-! ### Index file parser (`_parse_idx_file`) -/

/-- The line split `idx_content.strip().split("\n")` from `_parse_idx_file`. -/
def splitLines (content : String) : List String :=
  (splitListOn '\n' (pyStripL content.toList)).map String.mk

/-- The field split `line.split(":")`. -/
def splitColon (line : String) : List String :=
  (splitListOn ':' line.toList).map String.mk

/-- The loop body of `_parse_idx_file` over the colon-split lines.  `i` is the
running `enumerate` index; the head of `rest` plays the role of `lines[i+1]`.
`Except.error` models an uncaught `ValueError` from `int(...)`. -/
def parseIdxEntriesAux : Nat → List (List String) → Except Unit (List IdxEntry)
  | _, [] => .ok []
  | i, parts :: rest =>
    if parts.length < 6 then parseIdxEntriesAux (i + 1) rest
    else
      match pyInt? (parts.getD 1 "") with
      | none => .error ()
      | some offset =>
        let endRes : Except Unit (Option Int) :=
          match rest with
          | [] => .ok none
          | nextParts :: _ =>
            if nextParts.length ≥ 2 then
              match pyInt? (nextParts.getD 1 "") with
              | none => .error ()
              | some e => .ok (some e)
            else .ok none
        match endRes with
        | .error _ => .error ()
        | .ok endOffset =>
          let entryIndex : Int :=
            match pyFloat? (parts.getD 0 "") with
            | some q => truncToInt q
            | none => (i : Int) + 1
          match parseIdxEntriesAux (i + 1) rest with
          | .error _ => .error ()
          | .ok es =>
            .ok ({ index := entryIndex, offset := offset, endOffset := endOffset,
                   dateStr := parts.getD 2 "", varName := parts.getD 3 "",
                   level := parts.getD 4 "",
                   forecast := if parts.length > 5 then parts.getD 5 "" else "" } :: es)

/-- Embedding of `_parse_idx_file(idx_content)` from `grib2_reader.py`. -/
def parseIdxFile (content : String) : Except Unit (List IdxEntry) :=
  parseIdxEntriesAux 0 ((splitLines content).map splitColon)

/-- The offset-chaining property claimed by the spec: each entry's end offset
is the next entry's start offset and the final entry's end offset is `none`. -/
def offsetsChained : List IdxEntry → Bool
  | [] => true
  | [e] => e.endOffset.isNone
  | e :: e' :: t => (e.endOffset == some e'.offset) && offsetsChained (e' :: t)

/-- A colon-split idx line that parses cleanly: at least six fields and an
integer byte-offset field. -/
def lineWellFormed (parts : List String) : Bool :=
  decide (parts.length ≥ 6) && (pyInt? (parts.getD 1 "")).isSome

/-- An idx file containing a malformed middle line (too few fields) whose
offset nevertheless feeds the previous entry's end offset. -/
def c4BadInput : String :=
  "1:0:a:b:c:d\n2:100:x\n3:200:a:b:c:d"

/-- A fully well-formed two-line idx file. -/
def c4GoodInput : String :=
  "1:0:d=2024010100:TMP:2 m above ground:anl\n2:100:d=2024010100:UGRD:10 m above ground:anl"

theorem parseIdxEntriesAux_cons (i : Nat) (parts : List String)
    (rest : List (List String)) :
    parseIdxEntriesAux i (parts :: rest) =
      if parts.length < 6 then parseIdxEntriesAux (i + 1) rest
      else
        match pyInt? (parts.getD 1 "") with
        | none => .error ()
        | some offset =>
          let endRes : Except Unit (Option Int) :=
            match rest with
            | [] => .ok none
            | nextParts :: _ =>
              if nextParts.length ≥ 2 then
                match pyInt? (nextParts.getD 1 "") with
                | none => .error ()
                | some e => .ok (some e)
              else .ok none
          match endRes with
          | .error _ => .error ()
          | .ok endOffset =>
            let entryIndex : Int :=
              match pyFloat? (parts.getD 0 "") with
              | some q => truncToInt q
              | none => (i : Int) + 1
            match parseIdxEntriesAux (i + 1) rest with
            | .error _ => .error ()
            | .ok es =>
              .ok ({ index := entryIndex, offset := offset, endOffset := endOffset,
                     dateStr := parts.getD 2 "", varName := parts.getD 3 "",
                     level := parts.getD 4 "",
                     forecast := if parts.length > 5 then parts.getD 5 "" else "" } :: es) := rfl

theorem parseIdxEntriesAux_wellFormed :
    ∀ (lns : List (List String)) (i : Nat),
      (∀ l ∈ lns, lineWellFormed l = true) →
      ∃ es, parseIdxEntriesAux i lns = .ok es ∧ offsetsChained es = true ∧
        (match lns, es with
         | [], es => es = []
         | l :: _, es => ∃ e es', es = e :: es' ∧ some e.offset = pyInt? (l.getD 1 "")) := by
  intro lns
  induction lns with
  | nil => exact fun i _ => ⟨[], rfl, rfl, rfl⟩
  | cons l rest ih =>
    intro i hwf
    have hl : lineWellFormed l = true := hwf l (List.mem_cons_self l rest)
    have hrest : ∀ l' ∈ rest, lineWellFormed l' = true :=
      fun l' hm => hwf l' (List.mem_cons_of_mem l hm)
    obtain ⟨hlen, hoff⟩ := Bool.and_eq_true_iff.mp hl
    obtain ⟨n, hn⟩ := Option.isSome_iff_exists.mp hoff
    obtain ⟨es', hes', hchain', hhead'⟩ := ih (i + 1) hrest
    have hnotlt : ¬ l.length < 6 := by
      have := of_decide_eq_true hlen
      omega
    cases rest with
    | nil =>
      refine ⟨[{ index := match pyFloat? (l.getD 0 "") with
                          | some q => truncToInt q
                          | none => (i : Int) + 1,
                 offset := n, endOffset := none,
                 dateStr := l.getD 2 "", varName := l.getD 3 "", level := l.getD 4 "",
                 forecast := if l.length > 5 then l.getD 5 "" else "" }], ?_, rfl, ?_⟩
      · rw [parseIdxEntriesAux_cons, if_neg hnotlt, hn]
        rfl
      · exact ⟨_, [], rfl, hn.symm⟩
    | cons next rest' =>
      have hnext : lineWellFormed next = true := hrest next (List.mem_cons_self next rest')
      obtain ⟨hlen2, hoff2⟩ := Bool.and_eq_true_iff.mp hnext
      obtain ⟨m, hm⟩ := Option.isSome_iff_exists.mp hoff2
      have hlen2' : next.length ≥ 2 := by
        have := of_decide_eq_true hlen2
        omega
      obtain ⟨e', es'', he'', hfst⟩ := hhead'
      refine ⟨{ index := match pyFloat? (l.getD 0 "") with
                         | some q => truncToInt q
                         | none => (i : Int) + 1,
                offset := n, endOffset := some m,
                dateStr := l.getD 2 "", varName := l.getD 3 "", level := l.getD 4 "",
                forecast := if l.length > 5 then l.getD 5 "" else "" } :: es', ?_, ?_, ?_⟩
      · rw [parseIdxEntriesAux_cons, if_neg hnotlt, hn]
        simp only [if_pos hlen2', hm, hes']
      · have hmo : m = e'.offset := by
          rw [hm] at hfst
          exact (Option.some_inj.mp hfst).symm
        rw [he''] at hchain' ⊢
        simp only [offsetsChained, Bool.and_eq_true]
        exact ⟨by simp [hmo], hchain'⟩
      · exact ⟨_, es', rfl, hn.symm⟩

/-- Counterexample to C4: on an input with a malformed middle line, parsing
succeeds but the first parsed entry's end offset (100, taken from the
malformed raw line) differs from the next parsed entry's start offset (200),
so the claimed chaining property is false. -/
theorem c4_counterexample :
    (parseIdxFile c4BadInput).toOption.map (List.map fun e => (e.offset, e.endOffset))
        = some [((0 : Int), some (100 : Int)), (200, none)]
    ∧ (parseIdxFile c4BadInput).toOption.map offsetsChained = some false := by
  constructor
  · decide
  · decide

/-- C4 (amended): on inputs all of whose lines are well-formed (at least six
colon-separated fields and an integer offset field), parsing succeeds,
consecutive entries' end/start offsets chain, and the final entry's end
offset is unbounded. -/
theorem c4_chained_when_wellFormed (content : String)
    (h : ∀ l ∈ (splitLines content).map splitColon, lineWellFormed l = true) :
    (parseIdxFile content).toOption.map offsetsChained = some true := by
  obtain ⟨es, hok, hchain, -⟩ :=
    parseIdxEntriesAux_wellFormed ((splitLines content).map splitColon) 0 h
  unfold parseIdxFile
  rw [hok]
  show some (offsetsChained es) = some true
  rw [hchain]

/-- Witness for `c4_chained_when_wellFormed` at a concrete well-formed input. -/
theorem c4_witness :
    (parseIdxFile c4GoodInput).toOption.map offsetsChained = some true :=
  c4_chained_when_wellFormed c4GoodInput (by decide)

/-! ### Nearest-value point sampler (`_extract_nearest_value`) -/

/-- Python float `%` (sign of divisor): `x - m * ⌊x / m⌋`. -/
def pyModQ (x m : ℚ) : ℚ := x - m * ⌊x / m⌋

/-- Abstraction of an `xarray.Dataset` as consumed by
`_extract_nearest_value`: `latLonDims = none` models the case where no
lat/lon dimension can be resolved (the resulting `NameError` reaches the
outer handler); `sel lat lon` models
`ds.sel({lat_dim: lat, lon_dim: lon}, method="nearest")` followed by reading
each data variable at the selected point, with `Except.error` modelling a
`KeyError`/`ValueError` from `sel` and a `none` payload modelling NaN. -/
structure XDataset where
  latLonDims : Option (String × String)
  dataVars : List String
  sel : ℚ → ℚ → Except Unit (String → Option ℚ)

/-- The variable-name heuristic
`var_name.lower() in v.lower() or v.lower() in var_name.lower()`. -/
def nameMatches (varName v : String) : Bool :=
  strContains (strLower v) (strLower varName) || strContains (strLower varName) (strLower v)

/-- The inner `for v in ds.data_vars` loop: first name-matched, non-NaN
value, if any. -/
def firstMatchedVal : List String → (String → Option ℚ) → String → Option ℚ
  | [], _, _ => none
  | v :: rest, row, varName =>
    if nameMatches varName v then
      match row v with
      | some x => some x
      | none => firstMatchedVal rest row varName
    else firstMatchedVal rest row varName

/-- Outcome of one iteration of the `for lon_val in [lon, lon_360]` loop. -/
inductive AttemptRes where
  | ret (v : Option ℚ)
  | cont
  | abort
deriving DecidableEq

/-- One iteration of the longitude-convention loop in
`_extract_nearest_value`: a `sel` error is caught by the inner
`except (KeyError, ValueError)` and continues; otherwise the iteration
returns either the first name-matched non-NaN value or the first data
variable's value (NaN mapped to `None`); an empty `data_vars` list raises
`IndexError`, which aborts to the outer handler. -/
def attemptSel (ds : XDataset) (lat lonVal : ℚ) (varName : String) : AttemptRes :=
  match ds.sel lat lonVal with
  | .error _ => .cont
  | .ok row =>
    match firstMatchedVal ds.dataVars row varName with
    | some x => .ret (some x)
    | none =>
      match ds.dataVars with
      | [] => .abort
      | v0 :: _ => .ret (row v0)

/-- Embedding of `_extract_nearest_value(ds, lat, lon, var_name)` from `grib2_reader.py`. -/
def extractNearestValue (ds : XDataset) (lat lon : ℚ) (varName : String) : Option ℚ :=
  let lon360 := pyModQ lon 360
  match ds.latLonDims with
  | none => none
  | some _ =>
    match attemptSel ds lat lon varName with
    | .ret v => v
    | .abort => none
    | .cont =>
      match attemptSel ds lat lon360 varName with
      | .ret v => v
      | _ => none

/-- A dataset whose nearest value at the signed longitude −100 is NaN while
the 0–360 equivalent longitude 260 yields the value 5. -/
def dsC5 : XDataset :=
  { latLonDims := some ("latitude", "longitude"),
    dataVars := ["t2m"],
    sel := fun _ lonVal =>
      if lonVal = -100 then Except.ok (fun _ => none)
      else Except.ok (fun _ => some 5) }

/-- Counterexample to C5: on `dsC5`, the 0–360 attempt would yield the
non-missing value 5, yet the sampler returns `none` because the first
(signed-longitude) attempt succeeded with a NaN payload and the code returns
immediately instead of trying the other convention. -/
theorem c5_counterexample :
    extractNearestValue dsC5 37 (-100) "t2m" = none
    ∧ pyModQ (-100) 360 = 260
    ∧ attemptSel dsC5 37 (pyModQ (-100) 360) "t2m" = .ret (some 5) := by
  have h260 : pyModQ (-100) 360 = 260 := by
    have hfl : ⌊(-100 : ℚ) / 360⌋ = -1 := by
      rw [Int.floor_eq_iff]
      norm_num
    unfold pyModQ
    rw [hfl]
    norm_num
  have hsel1 : dsC5.sel 37 (-100) = Except.ok (fun _ => none) := by
    show (if ((-100 : ℚ)) = -100 then Except.ok (fun _ => (none : Option ℚ))
          else Except.ok (fun _ => some 5)) = Except.ok (fun _ => none)
    rw [if_pos rfl]
  have hsel2 : dsC5.sel 37 260 = Except.ok (fun _ => some 5) := by
    show (if ((260 : ℚ)) = -100 then Except.ok (fun _ => (none : Option ℚ))
          else Except.ok (fun _ => some 5)) = Except.ok (fun _ => some 5)
    rw [if_neg (by norm_num)]
  have hatt1 : attemptSel dsC5 37 (-100) "t2m" = .ret none := by
    unfold attemptSel
    rw [hsel1]
    rfl
  have hatt2 : attemptSel dsC5 37 260 "t2m" = .ret (some 5) := by
    unfold attemptSel
    rw [hsel2]
    rfl
  have hext : extractNearestValue dsC5 37 (-100) "t2m" =
      (match attemptSel dsC5 37 (-100) "t2m" with
       | .ret v => v
       | .abort => none
       | .cont =>
         match attemptSel dsC5 37 (pyModQ (-100) 360) "t2m" with
         | .ret v => v
         | _ => none) := rfl
  refine ⟨?_, h260, ?_⟩
  · rw [hext, hatt1]
  · rw [h260, hatt2]

/-- C5 (amended): the sampler tries the signed convention first; the 0–360
convention is consulted only when the first attempt's selection raises a
lookup error.  A first attempt that returns (where the returned value is the
first name-matched non-missing value, or else the first data variable's
possibly-missing value) is final, and an empty data-variable list yields
`none`. -/
theorem c5_convention_order (ds : XDataset) (lat lon : ℚ) (varName : String)
    (hdims : ds.latLonDims ≠ none) :
    (∀ v, attemptSel ds lat lon varName = .ret v →
        extractNearestValue ds lat lon varName = v)
    ∧ (attemptSel ds lat lon varName = .cont →
        extractNearestValue ds lat lon varName =
          (match attemptSel ds lat (pyModQ lon 360) varName with
           | .ret v => v
           | _ => none))
    ∧ (attemptSel ds lat lon varName = .abort →
        extractNearestValue ds lat lon varName = none) := by
  obtain ⟨d, hd⟩ := Option.ne_none_iff_exists'.mp hdims
  refine ⟨?_, ?_, ?_⟩
  · intro v hv
    unfold extractNearestValue
    rw [hd, hv]
  · intro hc
    unfold extractNearestValue
    rw [hd, hc]
  · intro ha
    unfold extractNearestValue
    rw [hd, ha]

/-- Witness for `c5_convention_order`: a dataset whose first attempt returns
the matched value 5. -/
theorem c5_witness :
    extractNearestValue
      { latLonDims := some ("latitude", "longitude"), dataVars := ["t2m"],
        sel := fun _ _ => Except.ok (fun _ => some 5) } 37 (-100) "t2m" = some 5 :=
  (c5_convention_order
    { latLonDims := some ("latitude", "longitude"), dataVars := ["t2m"],
      sel := fun _ _ => Except.ok (fun _ => some 5) } 37 (-100) "t2m"
    (by simp)).1 (some 5) rfl

/-! ### Point-in-polygon test and AOI lattice (`_point_in_polygon`,
`_aoi_target_points`) -/

/-- Ideal decimal round-half-to-even on `ℚ` (Python `round` to integer). -/
def roundHalfEvenQ (x : ℚ) : ℤ :=
  if Int.fract x = 1 / 2 then 2 * round (x / 2) else round x

/-- Python `round(x, p)` on `ℚ`. -/
def pyRoundQ (x : ℚ) (p : ℕ) : ℚ := (roundHalfEvenQ (x * 10 ^ p) : ℚ) / 10 ^ p

/-- The `AoiConfig` dataclass from `config.py` (the fields used by `_aoi_target_points`). -/
structure AoiConfig where
  name : String
  min_lat : ℚ
  min_lon : ℚ
  max_lat : ℚ
  max_lon : ℚ
  polygon : List (ℚ × ℚ) := []

/-- Embedding of `_point_in_polygon(lat, lon, polygon)` from `grib2_reader.py`
(ray casting; polygon vertices are `(lat, lon)` pairs). -/
def pointInPolygon (lat lon : ℚ) (polygon : List (ℚ × ℚ)) : Bool :=
  let n := polygon.length
  if n < 3 then false
  else
    (List.range n).foldl
      (fun inside i =>
        let pi := polygon.getD i (0, 0)
        let pj := polygon.getD (if i = 0 then n - 1 else i - 1) (0, 0)
        let yi := pi.1
        let xi := pi.2
        let yj := pj.1
        let xj := pj.2
        let intersects :=
          (decide (yi > lat) != decide (yj > lat))
            && decide (lon < (xj - xi) * (lat - yi) / ((yj - yi) + 1 / 10 ^ 12) + xi)
        if intersects then !inside else inside)
      false

/-- The `while` loops of `_aoi_target_points`: successive coordinates
starting at `v`, stepping by `res` with 4-decimal rounding, while
`v ≤ maxv + 1e-9`.  The loop terminates for any positive step; `fuel` is an
upper bound on the iteration count supplied by the caller. -/
def scanVals : ℕ → ℚ → ℚ → ℚ → List ℚ
  | 0, _, _, _ => []
  | n + 1, v, maxv, res =>
    if v ≤ maxv + 1 / 10 ^ 9 then v :: scanVals n (pyRoundQ (v + res) 4) maxv res
    else []

/-- Iteration bound for `scanVals`: enough steps to cross the interval. -/
def scanFuel (minv maxv res : ℚ) : ℕ :=
  (((maxv + 1 - minv) / res).ceil).toNat + 2

/-- Embedding of `_aoi_target_points(aoi, resolution_deg)` from `grib2_reader.py`. -/
def aoiTargetPoints (aoi : AoiConfig) (res : ℚ := 1 / 4) : List (ℚ × ℚ) :=
  (scanVals (scanFuel aoi.min_lat aoi.max_lat res) aoi.min_lat aoi.max_lat res).flatMap
    fun lat =>
      (scanVals (scanFuel aoi.min_lon aoi.max_lon res) aoi.min_lon aoi.max_lon res).filterMap
        fun lon =>
          let point := (pyRoundQ lat 4, pyRoundQ lon 4)
          if aoi.polygon.isEmpty || pointInPolygon point.1 point.2 aoi.polygon then some point
          else none

/-- The full bounding-box lattice: the same enumeration with no polygon
filtering applied. -/
def bboxLattice (aoi : AoiConfig) (res : ℚ := 1 / 4) : List (ℚ × ℚ) :=
  (scanVals (scanFuel aoi.min_lat aoi.max_lat res) aoi.min_lat aoi.max_lat res).flatMap
    fun lat =>
      (scanVals (scanFuel aoi.min_lon aoi.max_lon res) aoi.min_lon aoi.max_lon res).map
        fun lon => (pyRoundQ lat 4, pyRoundQ lon 4)

/-- C10: the ray-casting test rejects every point when the polygon has fewer
than 3 vertices; consequently AOI lattice generation with a non-empty
degenerate polygon yields the empty list, while only an exactly-empty
polygon yields the full bounding-box lattice. -/
theorem c10_degenerate_polygon :
    (∀ (lat lon : ℚ) (poly : List (ℚ × ℚ)), poly.length < 3 →
        pointInPolygon lat lon poly = false)
    ∧ (∀ (aoi : AoiConfig) (res : ℚ), aoi.polygon ≠ [] → aoi.polygon.length < 3 →
        aoiTargetPoints aoi res = [])
    ∧ (∀ (aoi : AoiConfig) (res : ℚ), aoi.polygon = [] →
        aoiTargetPoints aoi res = bboxLattice aoi res) := by
  have hpip : ∀ (lat lon : ℚ) (poly : List (ℚ × ℚ)), poly.length < 3 →
      pointInPolygon lat lon poly = false := by
    intro lat lon poly hlen
    unfold pointInPolygon
    rw [if_pos hlen]
  refine ⟨hpip, ?_, ?_⟩
  · intro aoi res hne hlen
    unfold aoiTargetPoints
    rw [List.flatMap_eq_nil_iff]
    intro lat _
    rw [List.filterMap_eq_nil_iff]
    intro lon _
    have hempty : aoi.polygon.isEmpty = false := by
      cases hp : aoi.polygon with
      | nil => exact absurd hp hne
      | cons a t => simp [hp]
    simp only [hempty, hpip _ _ _ hlen, Bool.or_self, Bool.false_or, if_neg]
    simp
  · intro aoi res hp
    unfold aoiTargetPoints bboxLattice
    rw [hp]
    simp only [List.isEmpty_nil, Bool.true_or, if_true]
    refine congrArg _ (funext fun lat => ?_)
    exact congrFun (List.filterMap_eq_map fun lon => (pyRoundQ lat 4, pyRoundQ lon 4)) _

/-- Witness for `c10_degenerate_polygon`: a concrete 2-vertex polygon is
rejected everywhere and produces an empty AOI lattice. -/
theorem c10_witness :
    pointInPolygon 0 0 [(0, 0), (1, 1)] = false
    ∧ aoiTargetPoints
        { name := "degenerate", min_lat := 0, min_lon := 0, max_lat := 1, max_lon := 1,
          polygon := [(0, 0), (1, 1)] } (1 / 4) = [] :=
  ⟨c10_degenerate_polygon.1 0 0 [(0, 0), (1, 1)] (by simp),
   c10_degenerate_polygon.2.1
     { name := "degenerate", min_lat := 0, min_lon := 0, max_lat := 1, max_lon := 1,
       polygon := [(0, 0), (1, 1)] } (1 / 4) (by simp) (by simp)⟩

/-! ### Tile indexer (`write_forecast_points`, step 3, `bigquery_writer.py`) -/

/-- One `GridSamplePoint` as produced by `_extract_aoi_grid_samples`
(timestamps carried as their ISO strings, which is how the tile grouping key
consumes them). -/
structure GridSample where
  aoi_slug : String
  model_name : String
  run_time : String
  valid_time : String
  lat : ℚ
  lon : ℚ
  temperature_2m : Option ℚ
  precip_kg_m2 : Option ℚ
  wind_u_10m : Option ℚ
  wind_v_10m : Option ℚ
  snow_depth : Option ℚ
  relative_humidity : Option ℚ
deriving DecidableEq

/-- Embedding of `_tile_id(lat, lon)` from `bigquery_writer.py`. -/
def tileIdOf (lat lon : ℚ) : String :=
  "tile_" ++ toString ⌊lat⌋ ++ "_" ++ toString ⌊lon⌋

/-- One sampled spatial row as appended to `sampled_rows` in the
`grid_samples` branch of `write_forecast_points` (lineage fields `ingest_id`
and `created_at`, which are not part of any per-tile statistic, omitted). -/
structure SampledRow where
  model_name : String
  run_time : String
  valid_time : String
  tile_id : String
  city_slug : String
  lat : ℚ
  lon : ℚ
  temperature_2m : Option ℚ
  precip_kg_m2 : Option ℚ
  wind_u_10m : Option ℚ
  wind_v_10m : Option ℚ
  snow_depth : Option ℚ
  relative_humidity : Option ℚ
deriving DecidableEq

/-- The row-building loop `for gp in grid_samples`. -/
def sampleToRow (gp : GridSample) : SampledRow :=
  { model_name := gp.model_name, run_time := gp.run_time, valid_time := gp.valid_time,
    tile_id := tileIdOf gp.lat gp.lon, city_slug := gp.aoi_slug,
    lat := gp.lat, lon := gp.lon,
    temperature_2m := gp.temperature_2m, precip_kg_m2 := gp.precip_kg_m2,
    wind_u_10m := gp.wind_u_10m, wind_v_10m := gp.wind_v_10m,
    snow_depth := gp.snow_depth, relative_humidity := gp.relative_humidity }

/-- The grouping key `(r["model_name"], r["run_time"], r["valid_time"], r["tile_id"])`. -/
def rowKey (r : SampledRow) : String × String × String × String :=
  (r.model_name, r.run_time, r.valid_time, r.tile_id)

/-- The grouping step `tile_groups.setdefault(key, []).append(r)`: insertion-ordered. -/
def addToGroups :
    List ((String × String × String × String) × List SampledRow) →
    (String × String × String × String) → SampledRow →
    List ((String × String × String × String) × List SampledRow)
  | [], k, r => [(k, [r])]
  | (k0, rs) :: t, k, r =>
    if k0 = k then (k0, rs ++ [r]) :: t else (k0, rs) :: addToGroups t k r

/-- The `for r in sampled_rows` grouping loop of `write_forecast_points`. -/
def buildGroups (rows : List SampledRow) :
    List ((String × String × String × String) × List SampledRow) :=
  rows.foldl (fun gs r => addToGroups gs (rowKey r) r) []

/-- Dictionary lookup in the insertion-ordered group list. -/
def findGroup :
    List ((String × String × String × String) × List SampledRow) →
    (String × String × String × String) → Option (List SampledRow)
  | [], _ => none
  | (k0, rs) :: t, k => if k0 = k then some rs else findGroup t k

/-- One `grid_tile_fields` summary row's statistics for one field. -/
structure FieldStats where
  min_value : Option ℚ
  max_value : Option ℚ
  mean_value : Option ℚ
  null_count : ℕ
deriving DecidableEq

/-- Round-to-nearest, ties-to-even, at 53 significant bits: the IEEE-754
binary64 rounding of an exact rational, which is what every Python float
arithmetic result is.  Modelled for the normal range (no overflow or
subnormals, far outside any value the summed statistics reach). -/
def roundB64 (q : ℚ) : ℚ :=
  if q = 0 then 0
  else
    let e : ℤ := Int.log 2 |q|
    let ulp : ℚ := (2 : ℚ) ^ (e - 52)
    (roundHalfEvenQ (q / ulp) : ℚ) * ulp

/-- Python `sum(vals)` on a list of floats: a left-to-right fold of IEEE-754
double additions (each partial sum individually rounded), starting from 0.
The result depends on the order of the addends. -/
def pyFloatSum (l : List ℚ) : ℚ := l.foldl (fun acc x => roundB64 (acc + x)) 0

/-- The filtered list `vals = [g[field] for g in group if g[field] is not None]` and the
min/max/mean/null-count summary computed from it.  The mean
`sum(vals) / len(vals)` is float arithmetic: an order-dependent rounded
summation followed by a rounded division. -/
def fieldStatsOf (group : List SampledRow) (f : SampledRow → Option ℚ) : FieldStats :=
  let vals := group.filterMap f
  { min_value := vals.min?, max_value := vals.max?,
    mean_value := if vals.isEmpty then none
                  else some (roundB64 (pyFloatSum vals / (vals.length : ℚ))),
    null_count := group.length - vals.length }

/-- One `grid_tiles` row's statistics together with all six per-field
summaries (`fields` list of `write_forecast_points`). -/
structure TileStats where
  min_lat : Option ℚ
  min_lon : Option ℚ
  max_lat : Option ℚ
  max_lon : Option ℚ
  row_count : ℕ
  col_count : ℕ
  temperature_2m : FieldStats
  precip_kg_m2 : FieldStats
  wind_u_10m : FieldStats
  wind_v_10m : FieldStats
  snow_depth : FieldStats
  relative_humidity : FieldStats
deriving DecidableEq

/-- The per-tile statistics computed in the
`for (model_name, run_time, valid_time, tile_id), group in tile_groups.items()`
loop (`min(lats)`, `max(lats)`, `len(set(lats))`, … and the per-field
summaries). -/
def tileStatsOfGroup (group : List SampledRow) : TileStats :=
  let lats := group.map (·.lat)
  let lons := group.map (·.lon)
  { min_lat := lats.min?, min_lon := lons.min?, max_lat := lats.max?, max_lon := lons.max?,
    row_count := lats.dedup.length, col_count := lons.dedup.length,
    temperature_2m := fieldStatsOf group (·.temperature_2m),
    precip_kg_m2 := fieldStatsOf group (·.precip_kg_m2),
    wind_u_10m := fieldStatsOf group (·.wind_u_10m),
    wind_v_10m := fieldStatsOf group (·.wind_v_10m),
    snow_depth := fieldStatsOf group (·.snow_depth),
    relative_humidity := fieldStatsOf group (·.relative_humidity) }

/-- The tile indexer: per-tile statistics of a grid-sample batch, keyed like
`tile_groups`. -/
def tileStatsAt (samples : List GridSample) (k : String × String × String × String) :
    Option TileStats :=
  (findGroup (buildGroups (samples.map sampleToRow)) k).map tileStatsOfGroup

theorem min?_perm {α : Type} [LinearOrder α] {l l' : List α} (h : l.Perm l') :
    l.min? = l'.min? := by
  induction h with
  | nil => rfl
  | cons x _ ih => rw [List.min?_cons, List.min?_cons, ih]
  | swap x y l =>
    rw [List.min?_cons, List.min?_cons, List.min?_cons, List.min?_cons]
    cases hl : l.min? with
    | none => simp [min_comm]
    | some a => simp [min_left_comm]
  | trans _ _ ih1 ih2 => rw [ih1, ih2]

theorem max?_perm {α : Type} [LinearOrder α] {l l' : List α} (h : l.Perm l') :
    l.max? = l'.max? := by
  induction h with
  | nil => rfl
  | cons x _ ih => rw [List.max?_cons, List.max?_cons, ih]
  | swap x y l =>
    rw [List.max?_cons, List.max?_cons, List.max?_cons, List.max?_cons]
    cases hl : l.max? with
    | none => simp [max_comm]
    | some a => simp [max_left_comm]
  | trans _ _ ih1 ih2 => rw [ih1, ih2]

theorem isEmpty_perm {α : Type} {l l' : List α} (h : l.Perm l') :
    l.isEmpty = l'.isEmpty := by
  cases l with
  | nil => rw [List.Perm.eq_nil h.symm]
  | cons a t =>
    cases l' with
    | nil => exact absurd (List.Perm.eq_nil h) (by simp)
    | cons b t' => rfl

/-- The order-insensitive part of a per-field summary: min, max and null
count (everything except the float mean). -/
def fieldStatsNoMean (fs : FieldStats) : Option ℚ × Option ℚ × ℕ :=
  (fs.min_value, fs.max_value, fs.null_count)

/-- The order-insensitive part of the per-tile statistics: bounding
coordinates, distinct row/column counts, and each field's min, max and null
count — every statistic except the six float means. -/
def tileStatsNoMean (ts : TileStats) :
    (Option ℚ × Option ℚ × Option ℚ × Option ℚ) × (ℕ × ℕ) ×
      (Option ℚ × Option ℚ × ℕ) × (Option ℚ × Option ℚ × ℕ) ×
      (Option ℚ × Option ℚ × ℕ) × (Option ℚ × Option ℚ × ℕ) ×
      (Option ℚ × Option ℚ × ℕ) × (Option ℚ × Option ℚ × ℕ) :=
  ((ts.min_lat, ts.min_lon, ts.max_lat, ts.max_lon), (ts.row_count, ts.col_count),
    fieldStatsNoMean ts.temperature_2m, fieldStatsNoMean ts.precip_kg_m2,
    fieldStatsNoMean ts.wind_u_10m, fieldStatsNoMean ts.wind_v_10m,
    fieldStatsNoMean ts.snow_depth, fieldStatsNoMean ts.relative_humidity)

theorem fieldStatsOf_noMean_perm {g g' : List SampledRow} (h : g.Perm g')
    (f : SampledRow → Option ℚ) :
    fieldStatsNoMean (fieldStatsOf g f) = fieldStatsNoMean (fieldStatsOf g' f) := by
  have hv : (g.filterMap f).Perm (g'.filterMap f) := h.filterMap f
  simp only [fieldStatsOf, fieldStatsNoMean]
  rw [min?_perm hv, max?_perm hv, hv.length_eq, h.length_eq]

theorem tileStatsOfGroup_noMean_perm {g g' : List SampledRow} (h : g.Perm g') :
    tileStatsNoMean (tileStatsOfGroup g) = tileStatsNoMean (tileStatsOfGroup g') := by
  have hlat : (g.map (·.lat)).Perm (g'.map (·.lat)) := h.map _
  have hlon : (g.map (·.lon)).Perm (g'.map (·.lon)) := h.map _
  simp only [tileStatsOfGroup, tileStatsNoMean]
  rw [min?_perm hlat, min?_perm hlon, max?_perm hlat, max?_perm hlon,
    hlat.dedup.length_eq, hlon.dedup.length_eq,
    fieldStatsOf_noMean_perm h, fieldStatsOf_noMean_perm h, fieldStatsOf_noMean_perm h,
    fieldStatsOf_noMean_perm h, fieldStatsOf_noMean_perm h, fieldStatsOf_noMean_perm h]

theorem findGroup_addToGroups
    (gs : List ((String × String × String × String) × List SampledRow))
    (k : String × String × String × String) (r : SampledRow)
    (k' : String × String × String × String) :
    findGroup (addToGroups gs k r) k' =
      if k' = k then some ((findGroup gs k').getD [] ++ [r]) else findGroup gs k' := by
  induction gs with
  | nil =>
    by_cases h : k' = k
    · subst h
      simp [addToGroups, findGroup]
    · simp only [addToGroups, findGroup]
      rw [if_neg (fun he => h he.symm), if_neg h]
  | cons p t ih =>
    obtain ⟨k0, rs⟩ := p
    simp only [addToGroups]
    by_cases h0 : k0 = k
    · rw [if_pos h0]
      by_cases h1 : k' = k
      · have h2 : k0 = k' := by rw [h0, h1]
        simp only [findGroup, if_pos h2, if_pos h1, Option.getD_some]
      · have h2 : ¬ k0 = k' := fun he => h1 (by rw [← he, h0])
        simp only [findGroup, if_neg h2, if_neg h1]
    · rw [if_neg h0]
      by_cases h1 : k0 = k'
      · have h2 : ¬ k' = k := fun he => h0 (h1.trans he)
        simp only [findGroup, if_pos h1, if_neg h2]
      · simp only [findGroup, if_neg h1, ih]

theorem findGroup_foldl
    (rows : List SampledRow) :
    ∀ (gs : List ((String × String × String × String) × List SampledRow))
      (k : String × String × String × String),
    findGroup (rows.foldl (fun gs r => addToGroups gs (rowKey r) r) gs) k =
      (if (rows.filter fun r => decide (rowKey r = k)).isEmpty then findGroup gs k
       else some ((findGroup gs k).getD [] ++ rows.filter fun r => decide (rowKey r = k))) := by
  induction rows with
  | nil => intro gs k; simp
  | cons r rest ih =>
    intro gs k
    have hgs := findGroup_addToGroups gs (rowKey r) r k
    by_cases hk : rowKey r = k
    · have hb : decide (rowKey r = k) = true := decide_eq_true hk
      have hfil : List.filter (fun x => decide (rowKey x = k)) (r :: rest)
          = r :: List.filter (fun x => decide (rowKey x = k)) rest := by
        rw [List.filter_cons]
        simp [hb]
      have hfg : findGroup (addToGroups gs (rowKey r) r) k
          = some ((findGroup gs k).getD [] ++ [r]) := by
        rw [hgs]
        exact if_pos hk.symm
      rw [List.foldl_cons, ih (addToGroups gs (rowKey r) r) k, hfil, hfg]
      by_cases he : (List.filter (fun x => decide (rowKey x = k)) rest).isEmpty
      · have hnil : List.filter (fun x => decide (rowKey x = k)) rest = [] :=
          List.isEmpty_iff.mp he
        rw [if_pos he, hnil]
        simp
      · rw [if_neg he]
        simp [List.append_assoc]
    · have hb : decide (rowKey r = k) = false := decide_eq_false hk
      have hfil : List.filter (fun x => decide (rowKey x = k)) (r :: rest)
          = List.filter (fun x => decide (rowKey x = k)) rest := by
        rw [List.filter_cons]
        simp [hb]
      have hfg : findGroup (addToGroups gs (rowKey r) r) k = findGroup gs k := by
        rw [hgs]
        exact if_neg (fun he => hk he.symm)
      rw [List.foldl_cons, ih (addToGroups gs (rowKey r) r) k, hfil, hfg]

theorem findGroup_buildGroups (rows : List SampledRow)
    (k : String × String × String × String) :
    findGroup (buildGroups rows) k =
      (if (rows.filter fun r => decide (rowKey r = k)).isEmpty then none
       else some (rows.filter fun r => decide (rowKey r = k))) := by
  unfold buildGroups
  rw [findGroup_foldl]
  cases he : (rows.filter fun r => decide (rowKey r = k)).isEmpty
  · rfl
  · rfl

/-- C7 (amended): tile aggregation is permutation-invariant in every
per-tile statistic except the float mean — reordering the grid-sample batch
leaves each tile's bounding coordinates, distinct row/column counts, and
per-field min, max and null count unchanged.  The per-field mean is a
left-to-right float summation divided by the count and is not
order-independent (see the counterexample). -/
theorem c7_stats_except_mean_perm_invariant (s s' : List GridSample) (h : s.Perm s')
    (k : String × String × String × String) :
    (tileStatsAt s k).map tileStatsNoMean = (tileStatsAt s' k).map tileStatsNoMean := by
  have hrows : (s.map sampleToRow).Perm (s'.map sampleToRow) := h.map _
  have hfil : ((s.map sampleToRow).filter fun r => decide (rowKey r = k)).Perm
      ((s'.map sampleToRow).filter fun r => decide (rowKey r = k)) :=
    hrows.filter _
  unfold tileStatsAt
  rw [findGroup_buildGroups, findGroup_buildGroups, isEmpty_perm hfil]
  by_cases he : ((s'.map sampleToRow).filter fun r => decide (rowKey r = k)).isEmpty
  · rw [if_pos he, if_pos he]
  · rw [if_neg he, if_neg he]
    exact congrArg some (tileStatsOfGroup_noMean_perm hfil)

/-- A concrete grid sample for the `c7` witness. -/
def gsA : GridSample :=
  { aoi_slug := "la-plata-county", model_name := "HRRR",
    run_time := "2024-01-01T00:00:00+00:00", valid_time := "2024-01-01T01:00:00+00:00",
    lat := 37.1, lon := -107.9, temperature_2m := some 270, precip_kg_m2 := none,
    wind_u_10m := some 1, wind_v_10m := some 2, snow_depth := none,
    relative_humidity := some 50 }

/-- A second concrete grid sample for the `c7` witness. -/
def gsB : GridSample :=
  { aoi_slug := "la-plata-county", model_name := "HRRR",
    run_time := "2024-01-01T00:00:00+00:00", valid_time := "2024-01-01T01:00:00+00:00",
    lat := 37.2, lon := -107.8, temperature_2m := some 268, precip_kg_m2 := some 1,
    wind_u_10m := none, wind_v_10m := none, snow_depth := some 1,
    relative_humidity := some 60 }

/-- Witness for `c7_stats_except_mean_perm_invariant` on a concrete
two-element swap. -/
theorem c7_witness :
    (tileStatsAt [gsA, gsB]
        ("HRRR", "2024-01-01T00:00:00+00:00", "2024-01-01T01:00:00+00:00",
          "tile_37_-108")).map tileStatsNoMean
      = (tileStatsAt [gsB, gsA]
        ("HRRR", "2024-01-01T00:00:00+00:00", "2024-01-01T01:00:00+00:00",
          "tile_37_-108")).map tileStatsNoMean :=
  c7_stats_except_mean_perm_invariant [gsA, gsB] [gsB, gsA] (List.Perm.swap gsB gsA [])
    ("HRRR", "2024-01-01T00:00:00+00:00", "2024-01-01T01:00:00+00:00", "tile_37_-108")

theorem roundHalfEvenQ_intCast (n : ℤ) : roundHalfEvenQ (n : ℚ) = n := by
  unfold roundHalfEvenQ
  rw [Int.fract_intCast, if_neg (by norm_num)]
  exact round_intCast n

theorem intLog2_eq {r : ℚ} {e : ℤ} (hr : 0 < r) (h1 : (2 : ℚ) ^ e ≤ r)
    (h2 : r < (2 : ℚ) ^ (e + 1)) : Int.log 2 r = e := by
  have hcast : (((2 : ℕ)) : ℚ) = (2 : ℚ) := by norm_num
  refine le_antisymm ?_ ?_
  · have h2' : r < ((2 : ℕ) : ℚ) ^ (e + 1) := by
      rw [hcast]
      exact h2
    have hlt := (Int.lt_zpow_iff_log_lt one_lt_two hr).mp h2'
    omega
  · have h1' : ((2 : ℕ) : ℚ) ^ e ≤ r := by
      rw [hcast]
      exact h1
    exact (Int.zpow_le_iff_le_log one_lt_two hr).mp h1'

theorem roundB64_of_intMul {q : ℚ} {e n : ℤ} (hq : q ≠ 0)
    (hlog : Int.log 2 |q| = e) (hm : q / (2 : ℚ) ^ (e - 52) = (n : ℚ)) :
    roundB64 q = (n : ℚ) * (2 : ℚ) ^ (e - 52) := by
  simp only [roundB64]
  rw [if_neg hq, hlog, hm, roundHalfEvenQ_intCast]

theorem roundB64_of_tie {q : ℚ} {e : ℤ} (hq : q ≠ 0)
    (hlog : Int.log 2 |q| = e)
    (hfr : Int.fract (q / (2 : ℚ) ^ (e - 52)) = 1 / 2) :
    roundB64 q = ((2 * round (q / (2 : ℚ) ^ (e - 52) / 2) : ℤ) : ℚ) * (2 : ℚ) ^ (e - 52) := by
  simp only [roundB64]
  rw [if_neg hq, hlog]
  unfold roundHalfEvenQ
  rw [if_pos hfr]

theorem roundB64_of_round {q : ℚ} {e : ℤ} (hq : q ≠ 0)
    (hlog : Int.log 2 |q| = e)
    (hfr : Int.fract (q / (2 : ℚ) ^ (e - 52)) ≠ 1 / 2) :
    roundB64 q = ((round (q / (2 : ℚ) ^ (e - 52)) : ℤ) : ℚ) * (2 : ℚ) ^ (e - 52) := by
  simp only [roundB64]
  rw [if_neg hq, hlog]
  unfold roundHalfEvenQ
  rw [if_neg hfr]

theorem roundB64_zero : roundB64 0 = 0 := by
  simp [roundB64]

theorem roundB64_one : roundB64 1 = 1 := by
  have hlog : Int.log 2 |(1 : ℚ)| = 0 := by
    rw [abs_one]
    exact Int.log_one_right 2
  have hpow : (2 : ℚ) ^ ((0 : ℤ) - 52) = ((4503599627370496 : ℚ))⁻¹ := by
    rw [show ((0 : ℤ) - 52) = -((52 : ℕ) : ℤ) by norm_num, zpow_neg, zpow_natCast]
    norm_num
  have hm : (1 : ℚ) / (2 : ℚ) ^ ((0 : ℤ) - 52) = ((4503599627370496 : ℤ) : ℚ) := by
    rw [hpow]
    norm_num
  rw [roundB64_of_intMul one_ne_zero hlog hm, hpow]
  norm_num

theorem roundB64_1e16 : roundB64 ((10 : ℚ) ^ 16) = (10 : ℚ) ^ 16 := by
  have hlog : Int.log 2 |(10 : ℚ) ^ 16| = 53 := by
    rw [abs_of_pos (by positivity)]
    refine intLog2_eq (by positivity) ?_ ?_
    · rw [show ((53 : ℤ)) = ((53 : ℕ) : ℤ) by norm_num, zpow_natCast]
      norm_num
    · rw [show ((53 : ℤ) + 1) = ((54 : ℕ) : ℤ) by norm_num, zpow_natCast]
      norm_num
  have hpow : (2 : ℚ) ^ ((53 : ℤ) - 52) = 2 := by
    rw [show ((53 : ℤ) - 52) = 1 by norm_num, zpow_one]
  have hm : ((10 : ℚ) ^ 16) / (2 : ℚ) ^ ((53 : ℤ) - 52) = ((5000000000000000 : ℤ) : ℚ) := by
    rw [hpow]
    norm_num
  rw [roundB64_of_intMul (by positivity) hlog hm, hpow]
  norm_num

theorem roundB64_1e16_add_one : roundB64 ((10 : ℚ) ^ 16 + 1) = (10 : ℚ) ^ 16 := by
  have hlog : Int.log 2 |(10 : ℚ) ^ 16 + 1| = 53 := by
    rw [abs_of_pos (by positivity)]
    refine intLog2_eq (by positivity) ?_ ?_
    · rw [show ((53 : ℤ)) = ((53 : ℕ) : ℤ) by norm_num, zpow_natCast]
      norm_num
    · rw [show ((53 : ℤ) + 1) = ((54 : ℕ) : ℤ) by norm_num, zpow_natCast]
      norm_num
  have hpow : (2 : ℚ) ^ ((53 : ℤ) - 52) = 2 := by
    rw [show ((53 : ℤ) - 52) = 1 by norm_num, zpow_one]
  have hfl : ⌊((10 : ℚ) ^ 16 + 1) / 2⌋ = 5000000000000000 := by
    rw [Int.floor_eq_iff]
    constructor
    · push_cast
      norm_num
    · push_cast
      norm_num
  have hfr : Int.fract (((10 : ℚ) ^ 16 + 1) / (2 : ℚ) ^ ((53 : ℤ) - 52)) = 1 / 2 := by
    rw [hpow]
    unfold Int.fract
    rw [hfl]
    push_cast
    norm_num
  have hrd : round (((10 : ℚ) ^ 16 + 1) / (2 : ℚ) ^ ((53 : ℤ) - 52) / 2)
      = 2500000000000000 := by
    rw [hpow, round_eq]
    rw [show (((10 : ℚ) ^ 16 + 1) / 2 / 2 + 1 / 2) = ((10 : ℚ) ^ 16 + 3) / 4 by ring]
    rw [Int.floor_eq_iff]
    constructor
    · push_cast
      norm_num
    · push_cast
      norm_num
  rw [roundB64_of_tie (by positivity) hlog hfr, hrd, hpow]
  push_cast
  norm_num

theorem roundB64_third_pos : 0 < roundB64 (1 / 3 : ℚ) := by
  have hlog : Int.log 2 |(1 / 3 : ℚ)| = -2 := by
    rw [abs_of_pos (by norm_num)]
    refine intLog2_eq (by norm_num) ?_ ?_
    · rw [show ((-2 : ℤ)) = -((2 : ℕ) : ℤ) by norm_num, zpow_neg, zpow_natCast]
      norm_num
    · rw [show ((-2 : ℤ) + 1) = -((1 : ℕ) : ℤ) by norm_num, zpow_neg, zpow_natCast]
      norm_num
  have hpow54 : (2 : ℚ) ^ ((-2 : ℤ) - 52) = ((18014398509481984 : ℚ))⁻¹ := by
    rw [show ((-2 : ℤ) - 52) = -((54 : ℕ) : ℤ) by norm_num, zpow_neg, zpow_natCast]
    norm_num
  have hmval : (1 / 3 : ℚ) / (2 : ℚ) ^ ((-2 : ℤ) - 52) = 18014398509481984 / 3 := by
    rw [hpow54, div_eq_mul_inv, inv_inv]
    ring
  have hfl : ⌊(18014398509481984 : ℚ) / 3⌋ = 6004799503160661 := by
    rw [Int.floor_eq_iff]
    constructor
    · push_cast
      norm_num
    · push_cast
      norm_num
  have hfr : Int.fract ((1 / 3 : ℚ) / (2 : ℚ) ^ ((-2 : ℤ) - 52)) ≠ 1 / 2 := by
    rw [hmval]
    unfold Int.fract
    rw [hfl]
    push_cast
    norm_num
  have hrd : round ((1 / 3 : ℚ) / (2 : ℚ) ^ ((-2 : ℤ) - 52)) = 6004799503160661 := by
    rw [hmval, round_eq]
    rw [show ((18014398509481984 : ℚ) / 3 + 1 / 2) = 36028797018963971 / 6 by ring]
    rw [Int.floor_eq_iff]
    constructor
    · push_cast
      norm_num
    · push_cast
      norm_num
  rw [roundB64_of_round (by norm_num) hlog hfr, hrd, hpow54]
  positivity

/-- A grid sample whose temperature is the float `1e16` (exactly
representable in binary64). -/
def gsP : GridSample :=
  { aoi_slug := "la-plata-county", model_name := "HRRR", run_time := "rt",
    valid_time := "vt", lat := 37, lon := 263,
    temperature_2m := some ((10 : ℚ) ^ 16), precip_kg_m2 := none, wind_u_10m := none,
    wind_v_10m := none, snow_depth := none, relative_humidity := none }

/-- A grid sample at the same tile whose temperature is `1.0`. -/
def gsQ : GridSample :=
  { aoi_slug := "la-plata-county", model_name := "HRRR", run_time := "rt",
    valid_time := "vt", lat := 37, lon := 263,
    temperature_2m := some 1, precip_kg_m2 := none, wind_u_10m := none,
    wind_v_10m := none, snow_depth := none, relative_humidity := none }

/-- A grid sample at the same tile whose temperature is `-1e16`. -/
def gsR : GridSample :=
  { aoi_slug := "la-plata-county", model_name := "HRRR", run_time := "rt",
    valid_time := "vt", lat := 37, lon := 263,
    temperature_2m := some (-((10 : ℚ) ^ 16)), precip_kg_m2 := none, wind_u_10m := none,
    wind_v_10m := none, snow_depth := none, relative_humidity := none }

/-- The tile key shared by `gsP`, `gsQ` and `gsR`. -/
def keyC7 : String × String × String × String := ("HRRR", "rt", "vt", tileIdOf 37 263)

/-- C7 counterexample: reordering the same three-sample set changes the
tile's temperature mean.  Summed left-to-right as floats,
`1e16 + 1.0` rounds back to `1e16`, so the order `[1e16, 1, -1e16]` sums to
`0.0` while `[1e16, -1e16, 1]` sums to `1.0`; the per-tile statistics of the
two orderings therefore differ, refuting the claimed permutation
invariance. -/
theorem c7_counterexample :
    ([gsP, gsQ, gsR].Perm [gsP, gsR, gsQ])
    ∧ tileStatsAt [gsP, gsQ, gsR] keyC7 ≠ tileStatsAt [gsP, gsR, gsQ] keyC7 := by
  refine ⟨List.Perm.cons gsP (List.Perm.swap gsR gsQ []), ?_⟩
  intro heq
  have hd1 : decide (rowKey (sampleToRow gsP) = keyC7) = true := decide_eq_true rfl
  have hd2 : decide (rowKey (sampleToRow gsQ) = keyC7) = true := decide_eq_true rfl
  have hd3 : decide (rowKey (sampleToRow gsR) = keyC7) = true := decide_eq_true rfl
  have hstats1 : tileStatsAt [gsP, gsQ, gsR] keyC7
      = some (tileStatsOfGroup [sampleToRow gsP, sampleToRow gsQ, sampleToRow gsR]) := by
    unfold tileStatsAt
    rw [findGroup_buildGroups]
    have hfil : (([gsP, gsQ, gsR].map sampleToRow).filter
        fun r => decide (rowKey r = keyC7))
        = [sampleToRow gsP, sampleToRow gsQ, sampleToRow gsR] := by
      simp only [List.map_cons, List.map_nil, List.filter_cons, List.filter_nil,
        hd1, hd2, hd3, eq_self_iff_true, if_true]
    rw [hfil]
    rfl
  have hstats2 : tileStatsAt [gsP, gsR, gsQ] keyC7
      = some (tileStatsOfGroup [sampleToRow gsP, sampleToRow gsR, sampleToRow gsQ]) := by
    unfold tileStatsAt
    rw [findGroup_buildGroups]
    have hfil : (([gsP, gsR, gsQ].map sampleToRow).filter
        fun r => decide (rowKey r = keyC7))
        = [sampleToRow gsP, sampleToRow gsR, sampleToRow gsQ] := by
      simp only [List.map_cons, List.map_nil, List.filter_cons, List.filter_nil,
        hd1, hd2, hd3, eq_self_iff_true, if_true]
    rw [hfil]
    rfl
  rw [hstats1, hstats2] at heq
  have hts := Option.some.inj heq
  have hval1 : List.filterMap (fun r => r.temperature_2m)
      [sampleToRow gsP, sampleToRow gsQ, sampleToRow gsR]
      = [(10 : ℚ) ^ 16, 1, -((10 : ℚ) ^ 16)] := rfl
  have hval2 : List.filterMap (fun r => r.temperature_2m)
      [sampleToRow gsP, sampleToRow gsR, sampleToRow gsQ]
      = [(10 : ℚ) ^ 16, -((10 : ℚ) ^ 16), 1] := rfl
  have hm1 : (tileStatsOfGroup
        [sampleToRow gsP, sampleToRow gsQ, sampleToRow gsR]).temperature_2m.mean_value
      = some (roundB64 (pyFloatSum [(10 : ℚ) ^ 16, 1, -((10 : ℚ) ^ 16)] / 3)) := by
    simp only [tileStatsOfGroup, fieldStatsOf, hval1]
    norm_num
  have hm2 : (tileStatsOfGroup
        [sampleToRow gsP, sampleToRow gsR, sampleToRow gsQ]).temperature_2m.mean_value
      = some (roundB64 (pyFloatSum [(10 : ℚ) ^ 16, -((10 : ℚ) ^ 16), 1] / 3)) := by
    simp only [tileStatsOfGroup, fieldStatsOf, hval2]
    norm_num
  have hmean : (tileStatsOfGroup
        [sampleToRow gsP, sampleToRow gsQ, sampleToRow gsR]).temperature_2m.mean_value
      = (tileStatsOfGroup
        [sampleToRow gsP, sampleToRow gsR, sampleToRow gsQ]).temperature_2m.mean_value :=
    congrArg (fun ts => ts.temperature_2m.mean_value) hts
  rw [hm1, hm2] at hmean
  have hv := Option.some.inj hmean
  have hs1 : pyFloatSum [(10 : ℚ) ^ 16, 1, -((10 : ℚ) ^ 16)] = 0 := by
    unfold pyFloatSum
    rw [List.foldl_cons, List.foldl_cons, List.foldl_cons, List.foldl_nil]
    rw [zero_add, roundB64_1e16, roundB64_1e16_add_one,
      show ((10 : ℚ) ^ 16 + -((10 : ℚ) ^ 16)) = 0 by ring, roundB64_zero]
  have hs2 : pyFloatSum [(10 : ℚ) ^ 16, -((10 : ℚ) ^ 16), 1] = 1 := by
    unfold pyFloatSum
    rw [List.foldl_cons, List.foldl_cons, List.foldl_cons, List.foldl_nil]
    rw [zero_add, roundB64_1e16,
      show ((10 : ℚ) ^ 16 + -((10 : ℚ) ^ 16)) = 0 by ring, roundB64_zero, zero_add,
      roundB64_one]
  rw [hs1, hs2, show ((0 : ℚ) / 3) = 0 by norm_num, roundB64_zero] at hv
  exact absurd hv.symm roundB64_third_pos.ne'

/-! ### Derived metrics (`_compute_wind`, `_lapse_rate_adjust`) and per-city
record emission (`read_grib2_for_cities`, lines 466–553).  Real-valued
because the wind derivation uses `math.sqrt`/`math.atan2`; Python's decimal
`round` is modelled as ideal round-half-to-even. -/

open scoped Classical in
/-- Ideal decimal round-half-to-even on `ℝ` (Python `round` to integer). -/
noncomputable def roundHalfEvenR (x : ℝ) : ℤ :=
  if Int.fract x = 1 / 2 then 2 * round (x / 2) else round x

/-- Python `round(x, p)` on `ℝ`. -/
noncomputable def pyRoundR (x : ℝ) (p : ℕ) : ℝ := (roundHalfEvenR (x * 10 ^ p) : ℝ) / 10 ^ p

/-- Python float `%` on `ℝ` (sign of divisor): `x - m * ⌊x / m⌋`. -/
noncomputable def pyModR (x m : ℝ) : ℝ := x - m * ⌊x / m⌋

/-- Embedding of `math.degrees`. -/
noncomputable def degreesR (x : ℝ) : ℝ := x * (180 / Real.pi)

/-- Embedding of `math.atan2(y, x)`: the argument of the complex number `x + y·i`,
in `(-π, π]`. -/
noncomputable def atan2R (y x : ℝ) : ℝ := Complex.arg ⟨x, y⟩

/-- Embedding of `_compute_wind(u, v)` from `grib2_reader.py`. -/
noncomputable def computeWind (u v : Option ℝ) : Option ℝ × Option ℝ :=
  match u, v with
  | some uu, some vv =>
    let speed := Real.sqrt (uu ^ 2 + vv ^ 2)
    let direction := pyModR (270 - degreesR (atan2R vv uu)) 360
    (some (pyRoundR speed 2), some (pyRoundR direction 1))
  | _, _ => (none, none)

/-- Embedding of `_lapse_rate_adjust(temp_k, elevation_m, base_elev=1500)` from
`grib2_reader.py`. -/
noncomputable def lapseRateAdjust (tempK : ℝ) (elevationM : ℤ) (baseElev : ℤ := 1500) : ℝ :=
  let lapseRate : ℝ := 0.0065
  let deltaElev : ℤ := elevationM - baseElev
  pyRoundR (tempK - lapseRate * (deltaElev : ℝ)) 2

/-- The `ForecastPoint` dataclass from `grib2_reader.py` (timestamps as opaque integers —
no claim inspects them beyond copying). -/
structure ForecastPoint where
  city_slug : String
  model_name : String
  run_time : Int
  valid_time : Int
  elevation_band : Option ℤ
  temperature_2m : Option ℝ
  precip_kg_m2 : Option ℝ
  wind_speed_10m : Option ℝ
  wind_dir_10m : Option ℝ
  snow_depth : Option ℝ
  freezing_level_m : Option ℝ
  cape : Option ℝ
  relative_humidity : Option ℝ

open scoped Classical in
/-- The band temperature `_lapse_rate_adjust(temp_val, band) if temp_val
else None` — note the Python truthiness test, under which a temperature of
exactly `0.0` counts as falsy. -/
noncomputable def bandAdjustedTemp (tempVal : Option ℝ) (band : ℤ) : Option ℝ :=
  match tempVal with
  | some t => if t = 0 then none else some (lapseRateAdjust t band)
  | none => none

/-- The per-city record construction of `read_grib2_for_cities` (lines
466–553), given the extracted metric values for one city and forecast hour:
derive wind, drop the city if the checked metrics are all `None`, otherwise
emit the base record followed by one record per elevation band. -/
noncomputable def cityRecords (citySlug model : String) (runT validT : Int)
    (elevBands : List ℤ)
    (tempVal windU windV precipVal snowVal freezingVal capeVal rhVal : Option ℝ) :
    List ForecastPoint :=
  let wind := computeWind windU windV
  let windSpeed := wind.1
  let windDir := wind.2
  if tempVal.isNone && precipVal.isNone && windSpeed.isNone && snowVal.isNone
      && rhVal.isNone && freezingVal.isNone && capeVal.isNone then
    []
  else
    { city_slug := citySlug, model_name := strUpper model, run_time := runT,
      valid_time := validT, elevation_band := none, temperature_2m := tempVal,
      precip_kg_m2 := precipVal, wind_speed_10m := windSpeed, wind_dir_10m := windDir,
      snow_depth := snowVal, freezing_level_m := freezingVal, cape := capeVal,
      relative_humidity := rhVal }
    :: elevBands.map fun band =>
      { city_slug := citySlug, model_name := strUpper model, run_time := runT,
        valid_time := validT, elevation_band := some band,
        temperature_2m := bandAdjustedTemp tempVal band,
        precip_kg_m2 := precipVal, wind_speed_10m := windSpeed, wind_dir_10m := windDir,
        snow_depth := snowVal, freezing_level_m := freezingVal, cape := capeVal,
        relative_humidity := rhVal }

theorem roundHalfEvenR_intCast (n : ℤ) : roundHalfEvenR (n : ℝ) = n := by
  unfold roundHalfEvenR
  rw [Int.fract_intCast]
  rw [if_neg (by norm_num)]
  exact round_intCast n

theorem pyRoundR_of_intMul {x : ℝ} {p : ℕ} {n : ℤ} (h : x * 10 ^ p = (n : ℝ)) :
    pyRoundR x p = (n : ℝ) / 10 ^ p := by
  unfold pyRoundR
  rw [h, roundHalfEvenR_intCast]

theorem lapseRateAdjust_280_3500 : lapseRateAdjust 280 3500 = 267 := by
  simp only [lapseRateAdjust]
  have h1 : ((280 : ℝ) - 0.0065 * (((3500 : ℤ) - 1500 : ℤ) : ℝ)) = 267 := by
    push_cast
    norm_num
  rw [h1]
  have h2 : (267 : ℝ) * 10 ^ 2 = ((26700 : ℤ) : ℝ) := by
    push_cast
    norm_num
  rw [pyRoundR_of_intMul h2]
  push_cast
  norm_num

/-- C3 counterexample: the adjusted temperature for a 280 K base at 3500 m is
not 266.99 K. -/
theorem c3_counterexample : lapseRateAdjust 280 3500 ≠ 266.99 := by
  rw [lapseRateAdjust_280_3500]
  norm_num

/-- C3 (amended): `280 − 0.0065 × 2000 = 267.00` exactly, so the lapse-rate
adjustment of a 280 K base temperature to 3500 m returns 267.00 K. -/
theorem c3_adjusted_value : lapseRateAdjust 280 3500 = 267 :=
  lapseRateAdjust_280_3500

/-- C2 (code evaluated at the failing input): with a base temperature of
exactly 0.0, the emitted elevation-band record carries a `None` temperature
(the Python truthiness test `if temp_val` treats `0.0` as falsy), although
the lapse-rate transform of 0.0 at band 2500 is the non-null −6.5. -/
theorem c2_zero_base_temp_band_is_null :
    ((cityRecords "durango" "hrrr" 0 0 [2500] (some 0) none none none none none none
        none).map fun p => (p.elevation_band, p.temperature_2m))
      = [(none, some 0), (some 2500, none)]
    ∧ lapseRateAdjust 0 2500 = -(13 / 2) := by
  constructor
  · simp [cityRecords, computeWind, bandAdjustedTemp]
  · simp only [lapseRateAdjust]
    have h1 : ((0 : ℝ) - 0.0065 * (((2500 : ℤ) - 1500 : ℤ) : ℝ)) = -(13 / 2) := by
      push_cast
      norm_num
    rw [h1]
    have h2 : (-(13 / 2) : ℝ) * 10 ^ 2 = ((-650 : ℤ) : ℝ) := by
      push_cast
      norm_num
    rw [pyRoundR_of_intMul h2]
    push_cast
    norm_num

/-- C6: the base record for a city is dropped (together with all its
elevation-band derivatives) exactly when all eight output metrics are null,
and otherwise the base record (null elevation band, metrics as extracted) is
emitted first. -/
theorem c6_all_null_dropped (slug model : String) (rT vT : Int) (bands : List ℤ)
    (temp u v precip snow freezing cape rh : Option ℝ) :
    (cityRecords slug model rT vT bands temp u v precip snow freezing cape rh = []
      ↔ (temp = none ∧ precip = none ∧ (computeWind u v).1 = none
          ∧ (computeWind u v).2 = none ∧ snow = none ∧ freezing = none
          ∧ cape = none ∧ rh = none))
    ∧ (cityRecords slug model rT vT bands temp u v precip snow freezing cape rh ≠ [] →
        (cityRecords slug model rT vT bands temp u v precip snow freezing cape rh).head?
          = some { city_slug := slug, model_name := strUpper model, run_time := rT,
                   valid_time := vT, elevation_band := none, temperature_2m := temp,
                   precip_kg_m2 := precip, wind_speed_10m := (computeWind u v).1,
                   wind_dir_10m := (computeWind u v).2, snow_depth := snow,
                   freezing_level_m := freezing, cape := cape,
                   relative_humidity := rh }) := by
  have hws : (computeWind u v).1 = none ↔ u = none ∨ v = none := by
    cases u <;> cases v <;> simp [computeWind]
  have hwd : (computeWind u v).2 = none ↔ u = none ∨ v = none := by
    cases u <;> cases v <;> simp [computeWind]
  have hiff : (cityRecords slug model rT vT bands temp u v precip snow freezing cape rh
        = [])
      ↔ (temp.isNone && precip.isNone && (computeWind u v).1.isNone && snow.isNone
          && rh.isNone && freezing.isNone && cape.isNone) = true := by
    simp only [cityRecords]
    cases hB : (temp.isNone && precip.isNone && (computeWind u v).1.isNone && snow.isNone
        && rh.isNone && freezing.isNone && cape.isNone)
    · simp
    · simp
  have hconj : (temp.isNone && precip.isNone && (computeWind u v).1.isNone && snow.isNone
        && rh.isNone && freezing.isNone && cape.isNone) = true
      ↔ (temp = none ∧ precip = none ∧ (computeWind u v).1 = none
          ∧ (computeWind u v).2 = none ∧ snow = none ∧ freezing = none
          ∧ cape = none ∧ rh = none) := by
    simp only [Bool.and_eq_true, Option.isNone_iff_eq_none]
    constructor
    · rintro ⟨⟨⟨⟨⟨⟨h1, h2⟩, h3⟩, h4⟩, h5⟩, h6⟩, h7⟩
      exact ⟨h1, h2, h3, hwd.mpr (hws.mp h3), h4, h6, h7, h5⟩
    · rintro ⟨h1, h2, h3, h4, h5, h6, h7, h8⟩
      exact ⟨⟨⟨⟨⟨⟨h1, h2⟩, h3⟩, h5⟩, h8⟩, h6⟩, h7⟩
  refine ⟨hiff.trans hconj, ?_⟩
  intro hne
  have hb : (temp.isNone && precip.isNone && (computeWind u v).1.isNone && snow.isNone
      && rh.isNone && freezing.isNone && cape.isNone) = false := by
    cases hB : (temp.isNone && precip.isNone && (computeWind u v).1.isNone && snow.isNone
        && rh.isNone && freezing.isNone && cape.isNone)
    · rfl
    · exact absurd (hiff.mpr hB) hne
  simp only [cityRecords]
  rw [hb]
  rfl

/-- Witness for `c6_all_null_dropped`: with a single non-null temperature the
base record is emitted (elevation band null, temperature 280 K). -/
theorem c6_witness :
    cityRecords "durango" "hrrr" 0 0 [2000] (some 280) none none none none none none none
      ≠ []
    ∧ (cityRecords "durango" "hrrr" 0 0 [2000] (some 280) none none none none none none
        none).head?
      = some { city_slug := "durango", model_name := strUpper "hrrr", run_time := 0,
               valid_time := 0, elevation_band := none, temperature_2m := some 280,
               precip_kg_m2 := none, wind_speed_10m := (computeWind none none).1,
               wind_dir_10m := (computeWind none none).2, snow_depth := none,
               freezing_level_m := none, cape := none, relative_humidity := none } := by
  have h := c6_all_null_dropped "durango" "hrrr" 0 0 [2000] (some 280) none none none none
    none none none
  have hne : cityRecords "durango" "hrrr" 0 0 [2000] (some 280) none none none none none
      none none ≠ [] := by
    intro he
    have hx := (h.1.mp he).1
    exact Option.some_ne_none (280 : ℝ) hx
  exact ⟨hne, h.2 hne⟩

theorem computeWind_north : computeWind (some 0) (some (-5)) = (some 5, some 0) := by
  have hsqrt : Real.sqrt ((0 : ℝ) ^ 2 + (-5 : ℝ) ^ 2) = 5 := by
    rw [show ((0 : ℝ) ^ 2 + (-5 : ℝ) ^ 2) = 5 ^ 2 by norm_num,
      Real.sqrt_sq (by norm_num)]
  have harg : atan2R (-5) 0 = -(Real.pi / 2) := by
    unfold atan2R
    exact Complex.arg_eq_neg_pi_div_two_iff.mpr ⟨rfl, by norm_num⟩
  have hdeg : degreesR (atan2R (-5) 0) = -90 := by
    rw [harg]
    unfold degreesR
    field_simp
    ring
  have hfl : ⌊(360 : ℝ) / 360⌋ = 1 := by
    norm_num
  have hdir : pyModR (270 - degreesR (atan2R (-5) 0)) 360 = 0 := by
    rw [hdeg]
    unfold pyModR
    rw [show ((270 : ℝ) - -90) / 360 = 360 / 360 by norm_num, hfl]
    norm_num
  have hform : computeWind (some 0) (some (-5))
      = (some (pyRoundR (Real.sqrt ((0 : ℝ) ^ 2 + (-5 : ℝ) ^ 2)) 2),
         some (pyRoundR (pyModR (270 - degreesR (atan2R (-5) 0)) 360) 1)) := rfl
  rw [hform, hsqrt, hdir]
  have h5 : (5 : ℝ) * 10 ^ 2 = ((500 : ℤ) : ℝ) := by push_cast; norm_num
  have h0 : (0 : ℝ) * 10 ^ 1 = ((0 : ℤ) : ℝ) := by push_cast; norm_num
  rw [pyRoundR_of_intMul h5, pyRoundR_of_intMul h0]
  norm_num

/-- C8 counterexample: at `u = v = 1` the returned wind speed is the rounded
value 1.41, which is not `sqrt(u² + v²) = √2`. -/
theorem c8_counterexample :
    (computeWind (some 1) (some 1)).1 = some (141 / 100)
    ∧ ((141 : ℝ) / 100) ≠ Real.sqrt ((1 : ℝ) ^ 2 + 1 ^ 2) := by
  have h2 : Real.sqrt 2 ^ 2 = 2 := Real.sq_sqrt (by norm_num)
  have hnn : (0 : ℝ) ≤ Real.sqrt 2 := Real.sqrt_nonneg 2
  have hlb : (1.41 : ℝ) ≤ Real.sqrt 2 := by nlinarith [h2, hnn]
  have hub : Real.sqrt 2 < 1.415 := by nlinarith [h2, hnn]
  constructor
  · have hform : (computeWind (some 1) (some 1)).1
        = some (pyRoundR (Real.sqrt ((1 : ℝ) ^ 2 + 1 ^ 2)) 2) := rfl
    rw [hform, show ((1 : ℝ) ^ 2 + 1 ^ 2) = 2 by norm_num]
    refine congrArg some ?_
    unfold pyRoundR roundHalfEvenR
    have hfr : Int.fract (Real.sqrt 2 * 10 ^ 2) ≠ 1 / 2 := by
      intro hf
      rw [Int.fract] at hf
      have hfl : ⌊Real.sqrt 2 * 10 ^ 2⌋ = 141 := by
        rw [Int.floor_eq_iff]
        push_cast
        constructor <;> nlinarith [hlb, hub]
      rw [hfl] at hf
      nlinarith [h2, hf]
    rw [if_neg hfr]
    have hrd : round (Real.sqrt 2 * 10 ^ 2) = 141 := by
      rw [round_eq, Int.floor_eq_iff]
      push_cast
      constructor <;> nlinarith [hlb, hub]
    rw [hrd]
    norm_num
  · intro he
    have hsq : ((141 : ℝ) / 100) ^ 2 = 2 := by
      rw [he, show ((1 : ℝ) ^ 2 + 1 ^ 2) = 2 by norm_num]
      exact Real.sq_sqrt (by norm_num)
    norm_num at hsq

/-- C8 (amended): wind outputs are the claimed formulas rounded — speed
`round(sqrt(u² + v²), 2)` and direction
`round((270 − degrees(atan2(v, u))) mod 360, 1)`; either input null makes
both outputs null; and `u = 0, v = −5` yields speed 5, direction 0. -/
theorem c8_wind_formula :
    (∀ u v : Option ℝ, u = none ∨ v = none → computeWind u v = (none, none))
    ∧ (∀ uu vv : ℝ, computeWind (some uu) (some vv)
        = (some (pyRoundR (Real.sqrt (uu ^ 2 + vv ^ 2)) 2),
           some (pyRoundR (pyModR (270 - degreesR (atan2R vv uu)) 360) 1)))
    ∧ computeWind (some 0) (some (-5)) = (some 5, some 0) := by
  refine ⟨?_, fun uu vv => rfl, computeWind_north⟩
  rintro u v (rfl | rfl)
  · cases v <;> rfl
  · cases u <;> rfl

/-- Witness for `c8_wind_formula`: a null component nulls both outputs. -/
theorem c8_witness : computeWind none (some 5) = (none, none) :=
  c8_wind_formula.1 none (some 5) (Or.inl rfl)

end LocalWeather
